import Mathlib

/-!
Verification development for `playmind.py`, a command-line arithmetic drill.

The Python source is shallowly embedded: machine-level `int` values become
`Int`, Python `float` results of `round(..., k)` are modelled as exact
rationals rounded with banker's rounding (Python 3 `round` semantics),
fallible operations (list `IndexError`, dict `KeyError`, `ZeroDivisionError`,
the `AttributeError` in `init_game`) become `Option`/explicit outcome values,
and the interactive collaborators (the random operand source and the
answer-obtaining prompt) are injected as explicit streams.
-/

namespace PlayMind

/-- Round a rational to the nearest integer, ties to even
(the rounding used by Python 3 `round`). -/
def round_half_even (q : ℚ) : ℤ :=
  let f : ℤ := ⌊q⌋
  let frac : ℚ := q - f
  if frac < 1/2 then f
  else if 1/2 < frac then f + 1
  else if f % 2 = 0 then f else f + 1

/-- Python `round(x, 1)`: round to one decimal place, ties to even. -/
def round1 (q : ℚ) : ℚ := (round_half_even (q * 10) : ℚ) / 10

/-- Python `round(x, 2)`: round to two decimal places, ties to even. -/
def round2 (q : ℚ) : ℚ := (round_half_even (q * 100) : ℚ) / 100

/-- The session state of `PlayMindGame`: the fields set by `__init__`
(lines 38-44 of `playmind.py`). -/
structure PlayMindGame where
  operation : Int
  level : Int
  num_questions : Int
  num_correct : Int
  num_incorrect : Int
  total_time : ℚ
deriving DecidableEq, Repr

/-- `PlayMindGame.__init__`: stores the three selections unvalidated and
zeroes the counters and the timer. The Python constructor contains no
checks and cannot fail. -/
def PlayMindGame.init (operation level num_questions : Int) : PlayMindGame :=
  { operation := operation
  , level := level
  , num_questions := num_questions
  , num_correct := 0
  , num_incorrect := 0
  , total_time := 0 }

/-- `PlayMindGame.get_result`: dictionary dispatch on the operator string,
then `round(result, 1)`. An operator string outside the dictionary raises
`KeyError` (modelled `none`); `operator.truediv` with a zero divisor raises
`ZeroDivisionError` (modelled `none`). -/
def get_result (operation : String) (num_a num_b : Int) : Option ℚ :=
  if operation = "+" then some (round1 ((num_a : ℚ) + (num_b : ℚ)))
  else if operation = "-" then some (round1 ((num_a : ℚ) - (num_b : ℚ)))
  else if operation = "*" then some (round1 ((num_a : ℚ) * (num_b : ℚ)))
  else if operation = "/" then
    (if num_b = 0 then none else some (round1 ((num_a : ℚ) / (num_b : ℚ))))
  else none

/-- `PlayMindGame.get_level_nums`: the loop `for _ in range(self.level)`
multiplies `start = 1` by ten `max(level, 0)` times, so
`start = 10 ^ level.toNat`, and `end = start * 10 - 1`. Returned as a pair
`(minimum, maximum)` for the `[start, end]` list of the source. -/
def PlayMindGame.get_level_nums (g : PlayMindGame) : Int × Int :=
  let start : Int := 10 ^ g.level.toNat
  (start, start * 10 - 1)

/-- The `operations` list of `start_game` (line 71). -/
def game_operations : List String := ["+", "-", "*", "/"]

/-- Python list subscription `l[i]`, including negative indexing;
out-of-range indices raise `IndexError` (modelled `none`). -/
def py_list_get (l : List String) (i : Int) : Option String :=
  if 0 ≤ i then l.get? i.toNat
  else if (-i).toNat ≤ l.length then l.get? (l.length - (-i).toNat)
  else none

/-- Lines 75-76 of `start_game`: `if num_a < num_b: num_a, num_b = num_b, num_a`,
so the larger draw becomes the left operand. -/
def order_operands (d : Int × Int) : Int × Int :=
  if d.1 < d.2 then (d.2, d.1) else d

/-- One iteration of the `start_game` loop (lines 72-87): order the two
drawn operands, look up the operator string, compute the rounded result,
compare the provider's integer answer with `==` (numeric equality across
`int`/`float`), and bump exactly one counter. `none` models an uncaught
exception (`IndexError` from the operator lookup or `ZeroDivisionError`). -/
def PlayMindGame.play_question (g : PlayMindGame) (draw : Int × Int)
    (user_answer : Int) : Option PlayMindGame :=
  let p := order_operands draw
  match py_list_get game_operations (g.operation - 1) with
  | none => none
  | some operator_str =>
    match get_result operator_str p.1 p.2 with
    | none => none
    | some result =>
      if result = (user_answer : ℚ) then
        some { g with num_correct := g.num_correct + 1 }
      else
        some { g with num_incorrect := g.num_incorrect + 1 }

/-- The `for i in range(self.num_questions)` loop of `start_game`, with the
random draws and the provider's answers injected as streams indexed by the
question number `i`. -/
def run_loop (draws : ℕ → Int × Int) (answers : ℕ → Int) :
    ℕ → ℕ → PlayMindGame → Option PlayMindGame
  | _, 0, g => some g
  | i, n + 1, g =>
    match g.play_question (draws i) (answers i) with
    | none => none
    | some g' => run_loop draws answers (i + 1) n g'

/-- `PlayMindGame.start_game`: run the question loop for
`num_questions` iterations (`range` runs `max(num_questions, 0)` times),
then store `round(end_time - start_time, 2)` into `total_time`. The two
`perf_counter` readings are injected. -/
def PlayMindGame.start_game (g : PlayMindGame) (draws : ℕ → Int × Int)
    (answers : ℕ → Int) (start_time end_time : ℚ) : Option PlayMindGame :=
  match run_loop draws answers 0 g.num_questions.toNat g with
  | none => none
  | some g' => some { g' with total_time := round2 (end_time - start_time) }

/-- Outcome of `PlayMindGame.init_game` for one reading of the readiness
prompt. -/
inductive ReadyOutcome
  | started
  | goodbye
  | prompt_choose
  | attribute_error
deriving DecidableEq, Repr

/-- Python `s.strip()` on the character list: drop whitespace from both
ends. -/
def strip_chars (l : List Char) : List Char :=
  ((l.dropWhile Char.isWhitespace).reverse.dropWhile Char.isWhitespace).reverse

/-- Python `s.strip().lower()` (ASCII inputs): trim surrounding whitespace,
then lowercase each character. -/
def py_strip_lower (s : String) : String :=
  String.mk ((strip_chars s.data).map Char.toLower)

/-- `PlayMindGame.init_game` (lines 58-66) on one prompt reading.
The first branch tests `ready.strip().lower() == 'y'`. When it is false the
`elif` condition evaluates `ready.strip.lower()` — `strip` is not called, and
the bound-method object has no attribute `lower`, so an `AttributeError` is
raised before any comparison with `'n'` can happen; the `exit('Goodbye!')`
call and the `print('Choose y or n')` branch are both unreachable. -/
def init_game_outcome (ready : String) : ReadyOutcome :=
  if py_strip_lower ready = "y" then ReadyOutcome.started
  else ReadyOutcome.attribute_error

/-- The column-padding loop body of `show_highscores` (lines 135-145):
pad whichever of header and value is shorter with spaces to the length of
the other. -/
def pad_column (header value : String) : String × String :=
  if header.length < value.length then
    (header ++ String.mk (List.replicate (value.length - header.length) ' '), value)
  else
    (header, value ++ String.mk (List.replicate (header.length - value.length) ' '))

/-- One attempted reading inside `get_positive_int`: either `int(input())`
parsed to a value, or it raised `ValueError`. -/
inductive ReadAttempt
  | parsed (v : Int)
  | value_error
deriving DecidableEq, Repr

/-- `get_positive_int` (lines 173-189) over the successive reading attempts:
re-prompt on `ValueError` and on non-positive values, return the first
positive parsed integer; `none` when the attempts run out (the loop is still
going). -/
def get_positive_int_from : List ReadAttempt → Option Int
  | [] => none
  | ReadAttempt.value_error :: rest => get_positive_int_from rest
  | ReadAttempt.parsed v :: rest =>
    if v ≤ 0 then get_positive_int_from rest else some v

/-- `get_game_option` (lines 159-170) over the successive values returned by
its inner `get_positive_int` calls: loop until `option <= len(options)`. -/
def get_game_option_from (numOptions : ℕ) : List Int → Option Int
  | [] => none
  | v :: rest =>
    if v ≤ (numOptions : Int) then some v
    else get_game_option_from numOptions rest

/-! ### Helper lemmas -/

theorem round_half_even_intCast (n : ℤ) : round_half_even (n : ℚ) = n := by
  simp [round_half_even]

theorem round1_intCast (n : ℤ) : round1 (n : ℚ) = (n : ℚ) := by
  have h : ((n : ℚ)) * 10 = ((n * 10 : ℤ) : ℚ) := by push_cast; ring
  rw [round1, h, round_half_even_intCast]
  push_cast
  ring

theorem round_half_even_nonneg {q : ℚ} (hq : 0 ≤ q) : 0 ≤ round_half_even q := by
  have hf : (0 : ℤ) ≤ ⌊q⌋ := Int.floor_nonneg.mpr hq
  unfold round_half_even
  dsimp only
  split
  · exact hf
  · split
    · omega
    · split
      · exact hf
      · omega

theorem round2_nonneg {q : ℚ} (hq : 0 ≤ q) : 0 ≤ round2 q := by
  have h : (0 : ℤ) ≤ round_half_even (q * 100) :=
    round_half_even_nonneg (by positivity)
  unfold round2
  positivity

theorem order_operands_le (d : Int × Int) :
    (order_operands d).2 ≤ (order_operands d).1 := by
  unfold order_operands
  split <;> omega

theorem order_operands_snd_mem (d : Int × Int) :
    (order_operands d).2 = d.1 ∨ (order_operands d).2 = d.2 := by
  unfold order_operands
  split <;> simp

theorem play_question_cases {g g' : PlayMindGame} {d : Int × Int} {a : Int}
    (h : g.play_question d a = some g') :
    g' = { g with num_correct := g.num_correct + 1 } ∨
    g' = { g with num_incorrect := g.num_incorrect + 1 } := by
  simp only [PlayMindGame.play_question] at h
  rcases hop : py_list_get game_operations (g.operation - 1) with _ | op <;>
      rw [hop] at h
  · exact absurd h (by simp)
  · dsimp only at h
    rcases hres : get_result op (order_operands d).1 (order_operands d).2 with _ | r <;>
        rw [hres] at h
    · exact absurd h (by simp)
    · dsimp only at h
      split at h
      · exact Or.inl (Option.some.inj h).symm
      · exact Or.inr (Option.some.inj h).symm

theorem play_question_counters {g g' : PlayMindGame} {d : Int × Int} {a : Int}
    (h : g.play_question d a = some g') :
    (g'.num_correct = g.num_correct + 1 ∧ g'.num_incorrect = g.num_incorrect ∨
     g'.num_correct = g.num_correct ∧ g'.num_incorrect = g.num_incorrect + 1) ∧
    g'.operation = g.operation ∧ g'.level = g.level ∧
    g'.num_questions = g.num_questions ∧ g'.total_time = g.total_time := by
  rcases play_question_cases h with h' | h' <;> subst h' <;> simp

theorem run_loop_sum {draws : ℕ → Int × Int} {answers : ℕ → Int} :
    ∀ {n i : ℕ} {g g' : PlayMindGame},
      run_loop draws answers i n g = some g' →
      g'.num_correct + g'.num_incorrect =
        g.num_correct + g.num_incorrect + (n : Int) ∧
      g'.operation = g.operation ∧ g'.level = g.level ∧
      g'.num_questions = g.num_questions
  | 0, i, g, g', h => by
    simp only [run_loop] at h
    injection h with h
    subst h
    simp
  | n + 1, i, g, g', h => by
    simp only [run_loop] at h
    rcases hq : g.play_question (draws i) (answers i) with _ | g₁
    · rw [hq] at h; exact absurd h (by simp)
    · rw [hq] at h
      obtain ⟨hs, ho, hl, hn⟩ := run_loop_sum h
      obtain ⟨hc, ho₁, hl₁, hn₁, _⟩ := play_question_counters hq
      refine ⟨?_, by omega, by omega, by omega⟩
      push_cast
      omega

theorem get_positive_int_from_pos :
    ∀ {l : List ReadAttempt} {v : Int}, get_positive_int_from l = some v → 0 < v
  | [], v, h => by simp [get_positive_int_from] at h
  | ReadAttempt.value_error :: rest, v, h =>
    get_positive_int_from_pos (l := rest) (by simpa [get_positive_int_from] using h)
  | ReadAttempt.parsed w :: rest, v, h => by
    simp only [get_positive_int_from] at h
    split at h
    · exact get_positive_int_from_pos h
    · obtain rfl := Option.some.inj h
      omega

theorem get_game_option_from_bound {k : ℕ} :
    ∀ {vals : List Int} {w : Int}, (∀ x ∈ vals, 0 < x) →
      get_game_option_from k vals = some w → 1 ≤ w ∧ w ≤ (k : Int)
  | [], w, _, h => by simp [get_game_option_from] at h
  | v :: rest, w, hpos, h => by
    simp only [get_game_option_from] at h
    split at h
    · obtain rfl := Option.some.inj h
      exact ⟨hpos v (by simp), by assumption⟩
    · exact get_game_option_from_bound (fun x hx => hpos x (by simp [hx]))
        h

/-! ### Claim theorems -/

/-- C1, counterexample: the claimed formula `(10^(L-1), 10^L - 1)` fails at
level 1, where `get_level_nums` returns `(10, 99)` but the formula gives
`(1, 9)`. -/
theorem C1_formula_counterexample :
    (PlayMindGame.init 1 1 1).get_level_nums = (10, 99) ∧
    ¬ (PlayMindGame.init 1 1 1).get_level_nums =
        ((10 : Int) ^ (1 - 1 : ℕ), (10 : Int) ^ (1 : ℕ) - 1) := by
  decide

/-- C1 (amended): for every level L in 1..5, `get_level_nums` returns
`(10^L, 10^(L+1) - 1)`, so the range width is `9 * 10^L`; level 1 yields
`[10, 99]` and level 2 yields `[100, 999]`. -/
theorem C1_level_range (g : PlayMindGame) (h1 : 1 ≤ g.level) (h5 : g.level ≤ 5) :
    g.get_level_nums = ((10 : Int) ^ g.level.toNat, 10 ^ (g.level.toNat + 1) - 1) ∧
    g.get_level_nums.2 - g.get_level_nums.1 + 1 = 9 * 10 ^ g.level.toNat := by
  unfold PlayMindGame.get_level_nums
  refine ⟨?_, by ring⟩
  rw [pow_succ]

/-- C1, witness: at level 2 the amended formula evaluates to `(100, 999)`. -/
theorem C1_level_range_witness :
    1 ≤ (PlayMindGame.init 2 2 5).level ∧ (PlayMindGame.init 2 2 5).level ≤ 5 ∧
    (PlayMindGame.init 2 2 5).get_level_nums = (100, 999) := by
  refine ⟨by decide, by decide, ?_⟩
  exact ((C1_level_range (PlayMindGame.init 2 2 5) (by decide) (by decide)).1).trans
    (by decide)

/-- C2, counterexample: the constructor performs no validation, so for
`num_questions = 0` (and even for operation 7, level 0 and a negative
count) it produces a session object instead of failing. -/
theorem C2_no_validation_counterexample :
    PlayMindGame.init 1 1 0 =
      { operation := 1, level := 1, num_questions := 0,
        num_correct := 0, num_incorrect := 0, total_time := 0 } ∧
    PlayMindGame.init 7 0 (-3) =
      { operation := 7, level := 0, num_questions := -3,
        num_correct := 0, num_incorrect := 0, total_time := 0 } :=
  ⟨rfl, rfl⟩

/-- C2 (amended): construction never fails and stores its arguments
unvalidated with zeroed counters; instead, the input helpers enforce
validity before construction: `get_positive_int` returns only positive
integers and `get_game_option` returns only a value in `1..numOptions`. -/
theorem C2_validation_at_io_boundary (o l n : Int) (reads : List ReadAttempt)
    (v : Int) (opts : ℕ) (vals : List Int) (w : Int)
    (hv : get_positive_int_from reads = some v)
    (hvals : ∀ x ∈ vals, 0 < x)
    (hw : get_game_option_from opts vals = some w) :
    PlayMindGame.init o l n =
      { operation := o, level := l, num_questions := n,
        num_correct := 0, num_incorrect := 0, total_time := 0 } ∧
    0 < v ∧ 1 ≤ w ∧ w ≤ (opts : Int) :=
  ⟨rfl, get_positive_int_from_pos hv, (get_game_option_from_bound hvals hw).1,
    (get_game_option_from_bound hvals hw).2⟩

/-- C2, witness: a `ValueError` and a non-positive attempt are skipped and 7
is returned; the option 9 exceeds the 4 menu entries, so 3 is returned. -/
theorem C2_validation_at_io_boundary_witness :
    get_positive_int_from
      [ReadAttempt.value_error, ReadAttempt.parsed (-2), ReadAttempt.parsed 7] =
      some 7 ∧
    get_game_option_from 4 [9, 3] = some 3 ∧
    (PlayMindGame.init 1 1 0 =
      { operation := 1, level := 1, num_questions := 0,
        num_correct := 0, num_incorrect := 0, total_time := 0 } ∧
     (0 : Int) < 7 ∧ (1 : Int) ≤ 3 ∧ (3 : Int) ≤ (4 : ℕ)) :=
  ⟨by decide, by decide,
    C2_validation_at_io_boundary 1 1 0
      [ReadAttempt.value_error, ReadAttempt.parsed (-2), ReadAttempt.parsed 7]
      7 4 [9, 3] 3 (by decide) (by decide) (by decide)⟩

/-- C6: at the readiness gate the code evaluates `ready.strip.lower()` in the
`elif` condition without calling `strip`, so every non-`y` input — including
`n` — raises `AttributeError`: `n` does not exit with `Goodbye!` and other
inputs do not reach the re-prompt branch; only `y` starts the session. -/
theorem C6_readiness_gate_bug :
    init_game_outcome "n" = ReadyOutcome.attribute_error ∧
    init_game_outcome "n" ≠ ReadyOutcome.goodbye ∧
    init_game_outcome "x" = ReadyOutcome.attribute_error ∧
    init_game_outcome "x" ≠ ReadyOutcome.prompt_choose ∧
    init_game_outcome "y" = ReadyOutcome.started ∧
    init_game_outcome " Y " = ReadyOutcome.started := by
  decide

/-- C7, counterexample: `get_level_nums` does not fail for level 0; it
returns the range `(1, 9)` (the loop body never runs). -/
theorem C7_invalid_level_counterexample :
    (PlayMindGame.init 1 0 1).get_level_nums = (1, 9) := by decide

/-- C7 (amended): `get_level_nums` performs no validation and never fails;
for every level < 1 it returns the range `(1, 9)` rather than an
`InvalidLevel` error. -/
theorem C7_low_level_returns_range (g : PlayMindGame) (h : g.level < 1) :
    g.get_level_nums = (1, 9) := by
  unfold PlayMindGame.get_level_nums
  have ht : g.level.toNat = 0 := by omega
  rw [ht]
  norm_num

/-- C7, witness: a session constructed with level −3 still gets the range
`(1, 9)`. -/
theorem C7_low_level_returns_range_witness :
    (PlayMindGame.init 1 (-3) 1).level < 1 ∧
    (PlayMindGame.init 1 (-3) 1).get_level_nums = (1, 9) :=
  ⟨by decide, C7_low_level_returns_range _ (by decide)⟩

/-- C8, counterexample: for the header `Level` and the value `str(1)` the
padded column is 5 characters wide, not at least 12. -/
theorem C8_width_counterexample :
    pad_column "Level" (toString (1 : Int)) = ("Level", "1    ") ∧
    (pad_column "Level" (toString (1 : Int))).1.length = 5 ∧
    (pad_column "Level" (toString (1 : Int))).2.length = 5 ∧
    ¬ 12 ≤ (pad_column "Level" (toString (1 : Int))).1.length := by
  decide

/-- C8 (amended): each column is padded so header and value end up with the
same width, namely the larger of the two lengths; there is no 12-character
minimum. -/
theorem C8_columns_equal_width (header value : String) :
    (pad_column header value).1.length = max header.length value.length ∧
    (pad_column header value).2.length = max header.length value.length := by
  unfold pad_column
  by_cases h : header.length < value.length
  · rw [if_pos h]
    have hm : max header.length value.length = value.length := Nat.max_eq_right h.le
    refine ⟨?_, by simpa [hm] using rfl⟩
    simp only [String.length_append, String.length_mk, List.length_replicate, hm]
    omega
  · rw [if_neg h]
    have hm : max header.length value.length = header.length :=
      Nat.max_eq_left (by omega)
    refine ⟨by simpa [hm] using rfl, ?_⟩
    simp only [String.length_append, String.length_mk, List.length_replicate, hm]
    omega

/-- C3: for a division question with both operands drawn from the level
range of a session with level ≥ 1, the expected result equals
`round(operandA / operandB, 1)`, the right operand is at least 1 (so the
division-by-zero failure is unreachable) and the quotient is at least 1. -/
theorem C3_division_safety (g : PlayMindGame) (hlev : 1 ≤ g.level)
    (d : Int × Int) (ha : g.get_level_nums.1 ≤ d.1)
    (hb : g.get_level_nums.1 ≤ d.2) :
    get_result "/" (order_operands d).1 (order_operands d).2 =
      some (round1 (((order_operands d).1 : ℚ) / ((order_operands d).2 : ℚ))) ∧
    1 ≤ (order_operands d).2 ∧ (order_operands d).2 ≠ 0 ∧
    1 ≤ (((order_operands d).1 : ℚ) / ((order_operands d).2 : ℚ)) := by
  have hmin : (10 : Int) ≤ g.get_level_nums.1 := by
    unfold PlayMindGame.get_level_nums
    calc (10 : Int) = 10 ^ 1 := (pow_one 10).symm
    _ ≤ 10 ^ g.level.toNat := pow_le_pow_right (by norm_num) (by omega)
  have h2 : 1 ≤ (order_operands d).2 := by
    rcases order_operands_snd_mem d with h | h <;> omega
  have hne : (order_operands d).2 ≠ 0 := by omega
  refine ⟨by simp [get_result, hne], h2, hne, ?_⟩
  have hpos : (0 : ℚ) < ((order_operands d).2 : ℚ) := by
    exact_mod_cast (by omega : (0 : Int) < (order_operands d).2)
  rw [one_le_div hpos]
  exact_mod_cast order_operands_le d

/-- C3, witness: at level 1 with draws 99 and 10 the question is
`99 / 10`, the divisor is 10 ≥ 1 and the quotient 9.9 is at least 1. -/
theorem C3_division_safety_witness :
    1 ≤ (PlayMindGame.init 4 1 1).level ∧
    (PlayMindGame.init 4 1 1).get_level_nums.1 ≤ 99 ∧
    (PlayMindGame.init 4 1 1).get_level_nums.1 ≤ 10 ∧
    (get_result "/" (order_operands (99, 10)).1 (order_operands (99, 10)).2 =
      some (round1 (((order_operands (99, 10)).1 : ℚ) /
        ((order_operands (99, 10)).2 : ℚ))) ∧
     1 ≤ (order_operands (99, 10)).2 ∧ (order_operands (99, 10)).2 ≠ 0 ∧
     1 ≤ (((order_operands (99, 10)).1 : ℚ) / ((order_operands (99, 10)).2 : ℚ))) :=
  ⟨by decide, by decide, by decide,
    C3_division_safety (PlayMindGame.init 4 1 1) (by decide) (99, 10)
      (by decide) (by decide)⟩

/-- C4: both counters start at 0, every answered question increments exactly
one of them by exactly one, and a completed session of `n` questions ends
with `num_correct + num_incorrect = n`. -/
theorem C4_counters_sum (o l n : Int) (hn : 0 ≤ n) (draws : ℕ → Int × Int)
    (answers : ℕ → Int) (s e : ℚ) (g' : PlayMindGame)
    (h : (PlayMindGame.init o l n).start_game draws answers s e = some g') :
    (PlayMindGame.init o l n).num_correct = 0 ∧
    (PlayMindGame.init o l n).num_incorrect = 0 ∧
    g'.num_correct + g'.num_incorrect = n ∧
    (∀ (g₁ g₂ : PlayMindGame) (d : Int × Int) (a : Int),
      g₁.play_question d a = some g₂ →
      g₂.num_correct = g₁.num_correct + 1 ∧ g₂.num_incorrect = g₁.num_incorrect ∨
      g₂.num_correct = g₁.num_correct ∧ g₂.num_incorrect = g₁.num_incorrect + 1) := by
  refine ⟨rfl, rfl, ?_, fun g₁ g₂ d a hq => (play_question_counters hq).1⟩
  unfold PlayMindGame.start_game at h
  rcases hr : run_loop draws answers 0
      (PlayMindGame.init o l n).num_questions.toNat (PlayMindGame.init o l n)
    with _ | g₀ <;> rw [hr] at h
  · exact absurd h (by simp)
  · obtain ⟨hs, -, -, -⟩ := run_loop_sum hr
    injection h with h
    subst h
    simp only [PlayMindGame.init] at hs ⊢
    omega

/-- C4, witness: a two-question addition session with draws (7, 3) and
answers 10 completes with 2 correct, 0 incorrect, summing to 2. -/
theorem C4_counters_sum_witness :
    (0 : Int) ≤ 2 ∧
    (PlayMindGame.init 1 1 2).start_game (fun _ => (7, 3)) (fun _ => 10) 0 1 =
      some { operation := 1, level := 1, num_questions := 2, num_correct := 2,
             num_incorrect := 0, total_time := 1 } ∧
    (PlayMindGame.init 1 1 2).num_correct = 0 ∧
    (PlayMindGame.init 1 1 2).num_incorrect = 0 ∧
    (2 : Int) + 0 = 2 := by
  have hrun : (PlayMindGame.init 1 1 2).start_game (fun _ => (7, 3))
      (fun _ => 10) 0 1 =
      some { operation := 1, level := 1, num_questions := 2, num_correct := 2,
             num_incorrect := 0, total_time := 1 } := by
    norm_num +decide [PlayMindGame.start_game, run_loop, PlayMindGame.play_question,
      order_operands, py_list_get, game_operations, get_result, round1,
      round_half_even, PlayMindGame.init, round2, Int.toNat_ofNat,
      show (2 : Int).toNat = 2 from rfl]
  have h := C4_counters_sum 1 1 2 (by norm_num) (fun _ => (7, 3)) (fun _ => 10)
    0 1 _ hrun
  exact ⟨by norm_num, hrun, h.1, h.2.1, by simpa using h.2.2.1⟩

/-- C5: after the swap, the left operand is always at least the right one,
and the subtraction result is therefore non-negative. -/
theorem C5_operand_order (d : Int × Int) :
    (order_operands d).2 ≤ (order_operands d).1 ∧
    ∃ r : ℚ, get_result "-" (order_operands d).1 (order_operands d).2 = some r ∧
      0 ≤ r := by
  refine ⟨order_operands_le d, ?_⟩
  refine ⟨round1 (((order_operands d).1 : ℚ) - ((order_operands d).2 : ℚ)),
    by simp [get_result], ?_⟩
  have hcast : (((order_operands d).1 : ℚ) - ((order_operands d).2 : ℚ)) =
      (((order_operands d).1 - (order_operands d).2 : ℤ) : ℚ) := by
    push_cast
    ring
  rw [hcast, round1_intCast]
  have hle : (0 : ℤ) ≤ (order_operands d).1 - (order_operands d).2 := by
    have := order_operands_le d
    omega
  exact_mod_cast hle

/-- C9: two sessions with the same selections, the same draw stream and the
same answer stream end with identical operation, level, question count and
counters, whatever the two clock readings were; and the recorded total time
is non-negative whenever the clock is monotone. -/
theorem C9_deterministic_replay (o l n : Int) (draws : ℕ → Int × Int)
    (answers : ℕ → Int) (s₁ e₁ s₂ e₂ : ℚ) (g₁ g₂ : PlayMindGame)
    (hm : s₁ ≤ e₁)
    (h₁ : (PlayMindGame.init o l n).start_game draws answers s₁ e₁ = some g₁)
    (h₂ : (PlayMindGame.init o l n).start_game draws answers s₂ e₂ = some g₂) :
    g₁.operation = g₂.operation ∧ g₁.level = g₂.level ∧
    g₁.num_questions = g₂.num_questions ∧
    g₁.num_correct = g₂.num_correct ∧ g₁.num_incorrect = g₂.num_incorrect ∧
    0 ≤ g₁.total_time := by
  unfold PlayMindGame.start_game at h₁ h₂
  rcases hr : run_loop draws answers 0
      (PlayMindGame.init o l n).num_questions.toNat (PlayMindGame.init o l n)
    with _ | g₀ <;> rw [hr] at h₁ h₂
  · exact absurd h₁ (by simp)
  · injection h₁ with h₁
    injection h₂ with h₂
    subst h₁
    subst h₂
    exact ⟨rfl, rfl, rfl, rfl, rfl, round2_nonneg (by linarith)⟩

/-- C9, witness: replaying a one-question multiplication session with the
same draws and answers but different clock readings gives the same
counters, and the first run's total time is non-negative. -/
theorem C9_deterministic_replay_witness :
    (0 : ℚ) ≤ 3 ∧
    (PlayMindGame.init 3 1 1).start_game (fun _ => (12, 34)) (fun _ => 408) 0 3 =
      some { operation := 3, level := 1, num_questions := 1, num_correct := 1,
             num_incorrect := 0, total_time := 3 } ∧
    (PlayMindGame.init 3 1 1).start_game (fun _ => (12, 34)) (fun _ => 408) 1 6 =
      some { operation := 3, level := 1, num_questions := 1, num_correct := 1,
             num_incorrect := 0, total_time := 5 } ∧
    ((1 : Int) = 1 ∧ (0 : Int) = 0 ∧ (0 : ℚ) ≤ 3) := by
  have h₁ : (PlayMindGame.init 3 1 1).start_game (fun _ => (12, 34))
      (fun _ => 408) 0 3 =
      some { operation := 3, level := 1, num_questions := 1, num_correct := 1,
             num_incorrect := 0, total_time := 3 } := by
    norm_num +decide [PlayMindGame.start_game, run_loop, PlayMindGame.play_question,
      order_operands, py_list_get, game_operations, get_result, round1,
      round_half_even, PlayMindGame.init, round2, Int.toNat_ofNat,
      show (2 : Int).toNat = 2 from rfl]
  have h₂ : (PlayMindGame.init 3 1 1).start_game (fun _ => (12, 34))
      (fun _ => 408) 1 6 =
      some { operation := 3, level := 1, num_questions := 1, num_correct := 1,
             num_incorrect := 0, total_time := 5 } := by
    norm_num +decide [PlayMindGame.start_game, run_loop, PlayMindGame.play_question,
      order_operands, py_list_get, game_operations, get_result, round1,
      round_half_even, PlayMindGame.init, round2, Int.toNat_ofNat,
      show (2 : Int).toNat = 2 from rfl]
  have h := C9_deterministic_replay 3 1 1 (fun _ => (12, 34)) (fun _ => 408)
    0 3 1 6 _ _ (by norm_num) h₁ h₂
  exact ⟨by norm_num, h₁, h₂, h.2.2.2.1, h.2.2.2.2.1, h.2.2.2.2.2⟩

/-- C10: a division question whose rounded expected result is not a whole
number (denominator ≠ 1) is never answered correctly by any integer answer:
the incorrect counter is the one incremented. -/
theorem C10_fractional_division_never_correct (g : PlayMindGame)
    (hop : g.operation = 4) (d : Int × Int) (answer : Int) (hpos : 0 < answer)
    (r : ℚ)
    (hr : get_result "/" (order_operands d).1 (order_operands d).2 = some r)
    (hfrac : r.den ≠ 1) :
    g.play_question d answer =
      some { g with num_incorrect := g.num_incorrect + 1 } := by
  simp only [PlayMindGame.play_question, hop]
  have hlk : py_list_get game_operations ((4 : Int) - 1) = some "/" := by decide
  rw [hlk]
  dsimp only
  rw [hr]
  dsimp only
  rw [if_neg]
  intro hEq
  apply hfrac
  rw [hEq]
  exact Rat.den_intCast answer

/-- C10, witness: the question `99 / 10` has expected result 9.9; answering
9 increments the incorrect counter. -/
theorem C10_fractional_division_never_correct_witness :
    (PlayMindGame.init 4 1 1).operation = 4 ∧ (0 : Int) < 9 ∧
    (round1 ((99 : ℚ) / 10)).den ≠ 1 ∧
    (PlayMindGame.init 4 1 1).play_question (99, 10) 9 =
      some { operation := 4, level := 1, num_questions := 1, num_correct := 0,
             num_incorrect := 1, total_time := 0 } := by
  have hr : get_result "/" (order_operands (99, 10)).1 (order_operands (99, 10)).2
      = some (round1 ((99 : ℚ) / 10)) := by
    simp [order_operands, get_result]
  have hfrac : (round1 ((99 : ℚ) / 10)).den ≠ 1 := by
    have hv : round1 ((99 : ℚ) / 10) = 99 / 10 := by
      norm_num [round1, round_half_even]
    rw [hv]
    norm_num [Rat.den_div_eq_of_coprime]
  have h := C10_fractional_division_never_correct (PlayMindGame.init 4 1 1) rfl
    (99, 10) 9 (by norm_num) _ hr hfrac
  exact ⟨rfl, by norm_num, hfrac, h.trans (by decide)⟩

end PlayMind
